import Mathlib

/-!
Verification of the Graph-Loom query-execution contract and its reference
Python client (`examples/python_client/client.py`).

The client is a single linear call-and-print sequence: it builds a
`QueryRequest`, calls the unary `Execute` RPC, and prints the response.
We embed the response data model and the client's response handling as
pure Lean functions whose output is the ordered list of printed lines.
-/

namespace GraphLoom

/-- A graph vertex as carried in a response row: identifier, primary label,
and free-form attribute metadata (a string-to-string mapping, embedded as an
association list). -/
structure Node where
  id : String
  label : String
  metadata : List (String × String)
deriving DecidableEq

/-- A directed graph edge as carried in a response row. -/
structure Relationship where
  id : String
  from_id : String
  to_id : String
  label : String
  metadata : List (String × String)
deriving DecidableEq

/-- One unit of query output.  The wire format is a tagged union over
node / relationship / informational text; the client probes the variants
with `HasField`, so we embed a row as three independent option slots
(`HasField v` holds exactly when the slot is `some`).  This also lets us
state what the client does on ill-formed rows where a producer populated
more than one slot. -/
structure Row where
  node : Option Node
  relationship : Option Relationship
  info : Option String
deriving DecidableEq

/-- The response of the `Execute` RPC: semantic error text (empty means no
error), mutation counters, the mutated flag, and the ordered result rows. -/
structure QueryResponse where
  error : String
  affected_nodes : Nat
  affected_relationships : Nat
  mutated : Bool
  rows : List Row
deriving DecidableEq

/-- The request of the `Execute` RPC: query text, named parameters for
$param substitution, and the server-side logging flag. -/
structure QueryRequest where
  query : String
  params : List (String × String)
  log : Bool
deriving DecidableEq

/-- Rendering of a metadata mapping, after Python's `dict(...)` printing:
brace-delimited, comma-separated `key: value` entries.  (Python's repr also
quotes the strings; no claim depends on the quoting characters.) -/
def pyDict (m : List (String × String)) : String :=
  "\x7b" ++ String.intercalate ", " (m.map (fun kv => kv.1 ++ ": " ++ kv.2)) ++ "\x7d"

/-- Python prints booleans as `True` / `False`. -/
def pyBool (b : Bool) : String :=
  if b then "True" else "False"

/-- The line the client prints for a row whose node variant is rendered
(client.py line 39). -/
def nodeLine (n : Node) : String :=
  "[Node] ID: " ++ n.id ++ ", Label: " ++ n.label ++ ", Meta: " ++ pyDict n.metadata

/-- The line the client prints for a row whose relationship variant is
rendered (client.py lines 41-43). -/
def relLine (r : Relationship) : String :=
  "[Rel] ID: " ++ r.id ++ ", " ++ r.from_id ++ " -> " ++ r.to_id ++
    ", Label: " ++ r.label ++ ", Meta: " ++ pyDict r.metadata

/-- The line the client prints for a row whose info variant is rendered
(client.py line 45). -/
def infoLine (t : String) : String :=
  "[Info] " ++ t

/-- The client's per-row dispatch (client.py lines 37-45): an
`if HasField node / elif HasField relationship / elif HasField info` chain,
falling through silently when no variant is populated. -/
def renderRow (row : Row) : List String :=
  match row.node, row.relationship, row.info with
  | some n, _, _ => [nodeLine n]
  | none, some r, _ => [relLine r]
  | none, none, some t => [infoLine t]
  | none, none, none => []

/-- The lines the client prints on the non-error path (client.py lines
32-45): the two counters, the mutated flag, a results header, then the
rendering of each row in order. -/
def successLines (resp : QueryResponse) : List String :=
  ["Affected Nodes: " ++ toString resp.affected_nodes,
   "Affected Relationships: " ++ toString resp.affected_relationships,
   "Mutated: " ++ pyBool resp.mutated,
   "\nResults:"] ++ (resp.rows.map renderRow).flatten

/-- The client's handling of a received `QueryResponse` (client.py lines
28-45): `if response.error:` is Python string truthiness, i.e. the error
branch is taken exactly when `error` is non-empty, and it returns without
touching any other field. -/
def handleResponse (resp : QueryResponse) : List String :=
  if resp.error ≠ "" then
    ["Server Error: " ++ resp.error]
  else
    successLines resp

/-- What the `Execute` call delivers to the client: either a materialized
`QueryResponse`, or a transport-level RPC fault carrying a status code and
detail text (grpc.RpcError with `e.code()` and `e.details()`), in which
case no response object exists. -/
inductive ExecuteResult where
  | ok (resp : QueryResponse)
  | rpcError (code : String) (details : String)
deriving DecidableEq

/-- The observable output of the client's `run` body from the `Execute`
call on (client.py lines 21-50): the `try` block handles the response, and
the `except grpc.RpcError` arm prints the fault's code and details. -/
def run (res : ExecuteResult) : List String :=
  match res with
  | .ok resp => handleResponse resp
  | .rpcError code details => ["RPC failed: " ++ code ++ " - " ++ details]

/-- The client's channel kinds: `grpc.insecure_channel` vs a TLS-secured
channel. -/
inductive ChannelKind where
  | insecureKind
  | secureKind
deriving DecidableEq

/-- An RPC channel: its security kind and its `host:port` target string. -/
structure Channel where
  kind : ChannelKind
  target : String
deriving DecidableEq

/-- `grpc.insecure_channel`: a non-TLS channel to the given endpoint; the
endpoint is a parameter of the constructor. -/
def insecure_channel (target : String) : Channel :=
  ⟨ChannelKind.insecureKind, target⟩

/-- The default gRPC port, documented in the client's comment on line 7:
"Configure connection (default gRPC port is 50051)". -/
def default_grpc_port : Nat := 50051

/-- The channel the reference client opens (client.py line 8). -/
def clientChannel : Channel :=
  insecure_channel "localhost:50051"

/-- Modelled from the spec: the outcome of the engine executing one query.
The graph engine / server implementation is not part of the given material;
the spec describes it as an opaque executor that either reports a semantic
failure via a non-empty `error` text, or succeeds with aggregate mutation
counts and a fully materialized row sequence. -/
inductive EngineOutcome where
  | failure (msg : String)
  | success (affectedN : Nat) (affectedR : Nat) (rows : List Row)
deriving DecidableEq

/-- Modelled from the spec: how a well-formed server (without the
zero-effect-mutation edge case) packages an engine outcome into a
`QueryResponse`.  On semantic failure the error text is returned with
zeroed counters, `mutated = false` and no rows; on success `error` is
empty, the counters report the aggregate write effect, and `mutated` is
true iff any entity was affected. -/
def serverResponse : EngineOutcome → QueryResponse
  | .failure msg => ⟨msg, 0, 0, false, []⟩
  | .success an ar rows => ⟨"", an, ar, decide (0 < an + ar), rows⟩

/-- Modelled from the spec: the wire encoding of a request's `params` map
(the schema file is not part of the given material).  A mapping is encoded
as its sequence of key/value entries; the wire gives no ordering guarantee,
so a receiver may observe any permutation of the encoded entries. -/
def encodeParams (params : List (String × String)) : List (String × String) :=
  params

/-- One step of map decoding: merge one wire entry into the mapping built
so far, a later entry for an already-present key overriding the earlier
value. -/
def insertEntry (m : List (String × String)) (kv : String × String) :
    List (String × String) :=
  if m.any (fun e => e.1 = kv.1) then
    m.map (fun e => if e.1 = kv.1 then kv else e)
  else
    m ++ [kv]

/-- Modelled from the spec: decoding the received wire entries back into a
`params` mapping, merging entries left to right. -/
def decodeParams (entries : List (String × String)) : List (String × String) :=
  entries.foldl insertEntry []

/-- When the keys of the accumulated mapping and of the remaining wire
entries are jointly duplicate-free, every merge step is a plain append, so
decoding reproduces the entry sequence. -/
theorem foldl_insertEntry_of_nodup (q : List (String × String)) :
    ∀ acc : List (String × String), ((acc ++ q).map Prod.fst).Nodup →
      q.foldl insertEntry acc = acc ++ q := by
  induction q with
  | nil => intro acc _; simp
  | cons kv rest ih =>
    intro acc h
    have hk : kv.1 ∉ acc.map Prod.fst := by
      simp only [List.map_append, List.map_cons, List.nodup_append] at h
      intro hmem
      exact h.2.2 hmem (List.mem_cons_self _ _)
    have hany : acc.any (fun e => e.1 = kv.1) = false := by
      simp only [List.any_eq_false, decide_eq_true_eq]
      intro e he hek
      exact hk (hek ▸ List.mem_map_of_mem Prod.fst he)
    have hstep : insertEntry acc kv = acc ++ [kv] := by
      simp [insertEntry, hany]
    rw [List.foldl_cons, hstep, ih (acc ++ [kv]) (by simpa using h)]
    simp

/-- Claim C1: when the response's `error` field is non-empty, the client's
entire output is the single error report, so it checks `error` before any
other field and produces no output derived from `rows`, `affected_nodes`,
`affected_relationships` or `mutated`. -/
theorem error_checked_first (resp : QueryResponse) (h : resp.error ≠ "") :
    handleResponse resp = ["Server Error: " ++ resp.error] := by
  simp [handleResponse, h]

theorem error_checked_first_witness :
    handleResponse ⟨"boom", 3, 4, true, [⟨some ⟨"1", "Note", []⟩, none, none⟩]⟩ =
      ["Server Error: boom"] :=
  error_checked_first ⟨"boom", 3, 4, true, [⟨some ⟨"1", "Note", []⟩, none, none⟩]⟩ (by decide)

/-- Claim C2: on a transport-level failure of `Execute` no `QueryResponse`
exists (the `rpcError` constructor carries only the RPC fault's status code
and detail text), and the client's output on that path is exactly the fault
report built from those two pieces — it never reaches the response-handling
branch or an `error` field. -/
theorem transport_fault_path (code : String) (details : String) :
    run (ExecuteResult.rpcError code details) =
      ["RPC failed: " ++ code ++ " - " ++ details] := rfl

/-- Claim C3: a row with exactly the node variant populated renders the
node's id, label and metadata; exactly the relationship variant, the
relationship's id, endpoints, label and metadata; exactly the info
variant, its text payload. -/
theorem single_variant_rendering (n : Node) (r : Relationship) (t : String) :
    renderRow ⟨some n, none, none⟩ =
      ["[Node] ID: " ++ n.id ++ ", Label: " ++ n.label ++ ", Meta: " ++ pyDict n.metadata] ∧
    renderRow ⟨none, some r, none⟩ =
      ["[Rel] ID: " ++ r.id ++ ", " ++ r.from_id ++ " -> " ++ r.to_id ++
        ", Label: " ++ r.label ++ ", Meta: " ++ pyDict r.metadata] ∧
    renderRow ⟨none, none, some t⟩ = ["[Info] " ++ t] :=
  ⟨rfl, rfl, rfl⟩

/-- Claim C4: a row with no variant populated renders nothing, and in a
successful response such a row contributes no output while the remaining
rows are processed exactly as they would be without it. -/
theorem empty_row_skipped (a : Nat) (r : Nat) (m : Bool) (rest : List Row) :
    renderRow ⟨none, none, none⟩ = [] ∧
    handleResponse ⟨"", a, r, m, ⟨none, none, none⟩ :: rest⟩ =
      handleResponse ⟨"", a, r, m, rest⟩ := by
  refine ⟨rfl, ?_⟩
  simp [handleResponse, successLines, renderRow]

/-- Claim C5: for every response produced by the modelled standard server
(no zero-effect-mutation edge case), `mutated` is true exactly when the
affected-node and affected-relationship counts sum to a positive number. -/
theorem mutated_iff_affected (o : EngineOutcome) :
    (serverResponse o).mutated = true ↔
      0 < (serverResponse o).affected_nodes + (serverResponse o).affected_relationships := by
  cases o <;> simp [serverResponse]

/-- Claim C6: for every response produced by the modelled well-formed
server, a non-empty `error` field comes with an empty row sequence and
both affected counts equal to zero. -/
theorem error_implies_void (o : EngineOutcome) (h : (serverResponse o).error ≠ "") :
    (serverResponse o).rows = [] ∧ (serverResponse o).affected_nodes = 0 ∧
      (serverResponse o).affected_relationships = 0 := by
  cases o with
  | failure msg => exact ⟨rfl, rfl, rfl⟩
  | success an ar rows => exact absurd rfl h

theorem error_implies_void_witness :
    (serverResponse (EngineOutcome.failure "syntax error")).rows = [] ∧
      (serverResponse (EngineOutcome.failure "syntax error")).affected_nodes = 0 ∧
      (serverResponse (EngineOutcome.failure "syntax error")).affected_relationships = 0 :=
  error_implies_void (EngineOutcome.failure "syntax error") (by decide)

/-- Claim C7: encoding a `params` map with unique keys and decoding the
wire entries on the receiving side — in whatever order the wire delivered
them — yields a mapping containing exactly the same key/value pairs. -/
theorem params_roundtrip (p : List (String × String)) (q : List (String × String))
    (hnd : (p.map Prod.fst).Nodup) (hq : List.Perm q (encodeParams p)) :
    ∀ kv, kv ∈ decodeParams q ↔ kv ∈ p := by
  have hqnd : (q.map Prod.fst).Nodup := ((hq.map Prod.fst).nodup_iff).mpr hnd
  have hdec : decodeParams q = q := by
    simpa [decodeParams] using foldl_insertEntry_of_nodup q [] (by simpa using hqnd)
  intro kv
  rw [hdec]
  exact hq.mem_iff

theorem params_roundtrip_witness :
    (("a", "1") ∈ decodeParams [("b", "2"), ("a", "1")] ↔
      ("a", "1") ∈ [("a", "1"), ("b", "2")]) :=
  params_roundtrip [("a", "1"), ("b", "2")] [("b", "2"), ("a", "1")]
    (by decide) (by decide) ("a", "1")

/-- Claim C8: the reference client opens a non-TLS channel; its endpoint is
`host:port` with the port equal to the documented default 50051; and the
endpoint is a parameter of the channel constructor (a configurable target,
fixed to `localhost` by this reference client). -/
theorem channel_configuration :
    clientChannel.kind = ChannelKind.insecureKind ∧
    clientChannel.target = "localhost:" ++ toString default_grpc_port ∧
    ∀ t : String, (insecure_channel t).target = t :=
  ⟨rfl, rfl, fun _ => rfl⟩

/-- Claim C9: the client takes the failure branch exactly on a non-empty
`error` string: with `error = ""` the full success output (counters,
mutated flag, rows) is produced, and with any non-empty `error` only the
error report is. -/
theorem empty_error_is_success (a : Nat) (r : Nat) (m : Bool) (rows : List Row)
    (e : String) (he : e ≠ "") :
    handleResponse ⟨"", a, r, m, rows⟩ = successLines ⟨"", a, r, m, rows⟩ ∧
    handleResponse ⟨e, a, r, m, rows⟩ = ["Server Error: " ++ e] := by
  refine ⟨?_, ?_⟩
  · simp [handleResponse]
  · simp [handleResponse, he]

theorem empty_error_is_success_witness :
    handleResponse ⟨"", 1, 2, true, []⟩ = successLines ⟨"", 1, 2, true, []⟩ ∧
    handleResponse ⟨"x", 1, 2, true, []⟩ = ["Server Error: " ++ "x"] :=
  empty_error_is_success 1 2 true [] "x" (by decide)

/-- Claim C10: on an ill-formed row with several variants populated the
client renders exactly one, picked by the fixed priority node, then
relationship, then info; the other populated variants produce no output. -/
theorem variant_priority (n : Node) (r : Relationship) (t : String) :
    renderRow ⟨some n, some r, some t⟩ = [nodeLine n] ∧
    renderRow ⟨some n, some r, none⟩ = [nodeLine n] ∧
    renderRow ⟨some n, none, some t⟩ = [nodeLine n] ∧
    renderRow ⟨none, some r, some t⟩ = [relLine r] :=
  ⟨rfl, rfl, rfl, rfl⟩

end GraphLoom
